import Mathlib

/-!
Verification of the chat-widget conversation/request lifecycle of the
repository (the React component `AItest` in `src/unnamed/part_000`).

The component logic is embedded shallowly:

* `Part` and `ChatMsg` mirror the exported types
  `Part = \x7b text: string \x7d` and
  `ChatMsg = \x7b role: "user" | "model"; parts: Part[] \x7d`.
* `ChatState` collects the React state hooks of the component
  (`model`, `history`, `input`, `apiKey`, `rememberKey`, `loading`,
  `error`) together with the browser-storage slot `openai_api_key`
  (field `stored`, `none` when the key is absent).
* `toOpenAIMessages` and `safeShort` are the pure helpers of the
  component.
* `sendMessage` is modelled through an event trace
  (`sendMessageTrace`): the list of state writes and network calls the
  function performs, in source order, given the outcome of the single
  `fetch` (`FetchResult`).  Folding the trace over a state
  (`applyTrace`) yields the final state; `sendMessage` is that fold.
  The trace form keeps the temporal claims (what happens before the
  network call) faithful.
* `onApiKeyChange` and `onRememberToggle` are the credential input
  and persistence-checkbox handlers.

JavaScript `trim()` is embedded as `jsTrim` over the character list
(drop whitespace from both ends), and the JavaScript truthiness test
`!s` on a string as equality with `""`.
-/

namespace WebRepo

/-- One text part of a chat message: `Part = \x7b text: string \x7d`. -/
structure Part where
  text : String
deriving DecidableEq

/-- Internal message role: `"user" | "model"`. -/
inductive Role where
  | user
  | model
deriving DecidableEq

/-- Internal chat message: `ChatMsg = \x7b role; parts: Part[] \x7d`. -/
structure ChatMsg where
  role : Role
  parts : List Part
deriving DecidableEq

/-- An entry of the outbound OpenAI `messages` array:
`\x7b role, content \x7d`. -/
structure OutMsg where
  role : String
  content : String
deriving DecidableEq

/-- JavaScript `s.trim()`: drop whitespace from both ends of the
string. -/
def jsTrim (s : String) : String :=
  String.mk (((s.data.dropWhile Char.isWhitespace).reverse.dropWhile
    Char.isWhitespace).reverse)

/-- `toOpenAIMessages` from the component: map each `ChatMsg` to
`\x7b role: msg.role === "model" ? "assistant" : "user",
content: msg.parts.map(p => p.text).join("\n") \x7d`. -/
def toOpenAIMessages (h : List ChatMsg) : List OutMsg :=
  h.map fun msg =>
    { role := if msg.role = Role.model then "assistant" else "user"
      content := String.intercalate "\n" (msg.parts.map Part.text) }

/-- `safeShort(s, n = 300)` from the component:
`if (!s) return ""; return s.length > n ? s.slice(0, n) + "…" : s;`
(the JavaScript default argument `n = 300` is passed explicitly at the
call site here). -/
def safeShort (s : String) (n : Nat) : String :=
  if s = "" then ""
  else if s.length > n then s.take n ++ "…" else s

/-- The single outbound HTTP request: `POST /v1/chat/completions` with
a bearer credential header and body
`JSON.stringify(\x7b model, messages \x7d)`. -/
structure Request where
  model : String
  auth : String
  messages : List OutMsg
deriving DecidableEq

/-- Outcome fields of the awaited `fetch` response: `ok` and `status`
from the response, `text` is what `resp.text()` yields on the failure
path, and `content` is `data?.choices?.[0]?.message?.content`
(an absent field gives `none`). -/
structure HttpResponse where
  ok : Bool
  status : Nat
  text : String
  content : Option String
deriving DecidableEq

/-- Result of the network interaction: either the transport (or body
parsing) throws with an error message, or a response arrives. -/
inductive FetchResult where
  | fault (msg : String)
  | response (r : HttpResponse)
deriving DecidableEq

/-- The component state: the React hooks plus the one browser-storage
slot keyed `openai_api_key` (`stored`, `none` when the key is
absent). -/
structure ChatState where
  model : String
  history : List ChatMsg
  input : String
  apiKey : String
  rememberKey : Bool
  loading : Bool
  error : String
  stored : Option String
deriving DecidableEq

/-- One observable step of `sendMessage`: a state-hook write
(`setError`, `setLoading`, `setHistory` absolute or functional append,
`setInput`) or the network call itself. -/
inductive Event where
  | setErr (e : String)
  | setLoad (b : Bool)
  | setHist (h : List ChatMsg)
  | appendHist (m : ChatMsg)
  | setInp (v : String)
  | net (r : Request)
deriving DecidableEq

/-- Whether an event is the network call. -/
def Event.isNet : Event → Bool
  | .net _ => true
  | _ => false

/-- Whether an event writes the conversation history. -/
def Event.touchesHistory : Event → Bool
  | .setHist _ => true
  | .appendHist _ => true
  | _ => false

/-- Effect of one event on the component state (the network call
itself does not change the state). -/
def applyEvent (s : ChatState) : Event → ChatState
  | .setErr e => { s with error := e }
  | .setLoad b => { s with loading := b }
  | .setHist h => { s with history := h }
  | .appendHist m => { s with history := s.history ++ [m] }
  | .setInp v => { s with input := v }
  | .net _ => s

/-- Fold a trace of events over a state. -/
def applyTrace (s : ChatState) (tr : List Event) : ChatState :=
  tr.foldl applyEvent s

/-- The error message thrown on a non-ok response:
`OpenAI API 錯誤（HTTP $\x7bresp.status\x7d）：$\x7bsafeShort(errText)\x7d`. -/
def errorText (status : Nat) (body : String) : String :=
  "OpenAI API 錯誤（HTTP " ++ toString status ++ "）：" ++ safeShort body 300

/-- The event trace of `sendMessage(message?)`, in source order.

* `const content = (message ?? input).trim(); if (!content || loading) return;`
* `if (!apiKey) \x7b setError("請先輸入有效的 OpenAI API Key"); return; \x7d`
* `setError(""); setLoading(true);`
* `const newHistory = [...history, \x7b role: "user", parts: [\x7b text: content \x7d] \x7d];`
  then `setHistory(newHistory); setInput("");`
* `fetch(...)` carrying the model id and the transformed `newHistory`,
  then:
  - non-ok response: `throw new Error(...)`, caught by
    `setError(err?.message || String(err))` (the thrown message is the
    non-empty template, so that template is stored);
  - ok response: append `\x7b role: "model", parts: [\x7b text: reply \x7d] \x7d`
    where `reply = data?.choices?.[0]?.message?.content ?? "[No content]"`;
  - a thrown transport or parse error with message `m` stores `m`
    (for an `Error` carrying an empty message, `String(err)` is
    `"Error"`);
* `finally \x7b setLoading(false); \x7d`. -/
def sendMessageTrace (s : ChatState) (message : Option String)
    (net : FetchResult) : List Event :=
  let content := jsTrim (message.getD s.input)
  if content = "" ∨ s.loading = true then []
  else if s.apiKey = "" then [Event.setErr "請先輸入有效的 OpenAI API Key"]
  else
    let newHistory := s.history ++ [{ role := Role.user, parts := [{ text := content }] }]
    let req : Request :=
      { model := s.model, auth := s.apiKey, messages := toOpenAIMessages newHistory }
    let post : List Event :=
      match net with
      | .fault m => [Event.setErr (if m = "" then "Error" else m), Event.setLoad false]
      | .response r =>
        if r.ok then
          [Event.appendHist { role := Role.model, parts := [{ text := r.content.getD "[No content]" }] },
           Event.setLoad false]
        else
          [Event.setErr (errorText r.status r.text), Event.setLoad false]
    [Event.setErr "", Event.setLoad true, Event.setHist newHistory,
     Event.setInp "", Event.net req] ++ post

/-- The state after `sendMessage(message?)` ran to completion with
network outcome `net`: the fold of its event trace. -/
def sendMessage (s : ChatState) (message : Option String)
    (net : FetchResult) : ChatState :=
  applyTrace s (sendMessageTrace s message net)

/-- The API-key input `onChange` handler: `setApiKey(v);
if (rememberKey) localStorage.setItem("openai_api_key", v);`. -/
def onApiKeyChange (s : ChatState) (v : String) : ChatState :=
  { s with apiKey := v
           stored := if s.rememberKey then some v else s.stored }

/-- The persistence checkbox `onChange` handler:
`setRememberKey(checked); if (!checked) localStorage.removeItem(...);
else if (apiKey) localStorage.setItem(..., apiKey);`. -/
def onRememberToggle (s : ChatState) (checked : Bool) : ChatState :=
  { s with rememberKey := checked
           stored := if checked = false then none
                     else if s.apiKey = "" then s.stored
                     else some s.apiKey }

/-- The user message appended for trimmed content `t`. -/
def userMsg (t : String) : ChatMsg :=
  { role := Role.user, parts := [{ text := t }] }

/-- The assistant message (internal role `model`) appended for reply
`t`. -/
def modelMsg (t : String) : ChatMsg :=
  { role := Role.model, parts := [{ text := t }] }

/-- The request issued by a dispatched send: the current model id and
credential, with the transformed history that already includes the
appended user message for trimmed content `t`. -/
def dispatchRequest (s : ChatState) (t : String) : Request :=
  { model := s.model, auth := s.apiKey, messages := toOpenAIMessages (s.history ++ [userMsg t]) }

/-- A concrete idle component state, used by the witnesses. -/
def sampleState : ChatState :=
  { model := "gpt-5", history := [], input := "", apiKey := "sk-test",
    rememberKey := true, loading := false, error := "", stored := none }

/-- A concrete idle state with no credential, used by a witness. -/
def noKeyState : ChatState :=
  { model := "gpt-5", history := [], input := "", apiKey := "",
    rememberKey := true, loading := false, error := "", stored := none }

/-- A concrete state with a request in flight, used by a witness. -/
def busyState : ChatState :=
  { model := "gpt-5", history := [], input := "", apiKey := "sk-test",
    rememberKey := true, loading := true, error := "", stored := none }

/-- A 400-character failure body, longer than the truncation bound. -/
def c2Body : String := String.mk (List.replicate 400 'a')

/-- A concrete idle state used by the C2 counterexample. -/
def c2State : ChatState :=
  { model := "gpt-5", history := [], input := "", apiKey := "k",
    rememberKey := true, loading := false, error := "", stored := none }

end WebRepo

namespace WebRepo

/-- The result of `safeShort` is at most one character (the appended
ellipsis) longer than the bound `n`. -/
theorem safeShort_length_le (s : String) (n : Nat) :
    (safeShort s n).length ≤ n + 1 := by
  unfold safeShort
  by_cases he : s = ""
  · simp [he]
  · rw [if_neg he]
    by_cases hl : s.length > n
    · rw [if_pos hl]
      have ht : (s.take n).length ≤ n := by
        rw [String.take_eq]
        simp [List.length_take]
      have h1 : ("…" : String).length = 1 := rfl
      rw [String.length_append, h1]
      omega
    · rw [if_neg hl]
      omega

/-- The error string stored for an HTTP 401 failure is 24 characters
of fixed prefix plus the truncated body. -/
theorem errorText401_length (body : String) :
    (errorText 401 body).length = 24 + (safeShort body 300).length := by
  unfold errorText
  rw [String.length_append, String.length_append, String.length_append]
  have h1 : ("OpenAI API 錯誤（HTTP " : String).length = 19 := rfl
  have h2 : (toString (401 : Nat)).length = 3 := rfl
  have h3 : ("）：" : String).length = 2 := rfl
  omega

/-- Claim C1: for every input whose trim is non-empty, with no request
in flight and a non-empty credential, the trace of `sendMessage`
contains exactly one network event; that event sits at index 4 and
carries the transformed history including the new user message; the
four events before it contain no network activity and exactly one
history write, namely the append of exactly one user message holding
the trimmed text (pinned at index 2).  So the optimistic append
happens before any network activity. -/
theorem spec_C1 (s : ChatState) (text : String) (net : FetchResult)
    (h1 : jsTrim text ≠ "") (h2 : s.loading = false) (h3 : s.apiKey ≠ "") :
    (sendMessageTrace s (some text) net).countP Event.isNet = 1 ∧
    (sendMessageTrace s (some text) net)[4]? =
      some (Event.net (dispatchRequest s (jsTrim text))) ∧
    ((sendMessageTrace s (some text) net).take 4).countP Event.isNet = 0 ∧
    ((sendMessageTrace s (some text) net).take 4).countP Event.touchesHistory = 1 ∧
    (sendMessageTrace s (some text) net)[2]? =
      some (Event.setHist (s.history ++ [userMsg (jsTrim text)])) := by
  unfold sendMessageTrace
  simp only [Option.getD]
  rw [if_neg (by simp [h1, h2]), if_neg h3]
  rcases net with m | r
  · refine ⟨?_, ?_, ?_, ?_, ?_⟩ <;>
      simp [List.countP_cons, List.countP_nil, Event.isNet, Event.touchesHistory,
            userMsg, dispatchRequest]
  · by_cases hok : r.ok = true <;>
      refine ⟨?_, ?_, ?_, ?_, ?_⟩ <;>
        simp [hok, List.countP_cons, List.countP_nil, Event.isNet, Event.touchesHistory,
              userMsg, dispatchRequest]

/-- Witness for C1 at a concrete state, input and network outcome. -/
theorem spec_C1_witness :
    (sendMessageTrace sampleState (some "hi") (FetchResult.fault "x")).countP Event.isNet = 1 ∧
    (sendMessageTrace sampleState (some "hi") (FetchResult.fault "x"))[4]? =
      some (Event.net (dispatchRequest sampleState (jsTrim "hi"))) ∧
    ((sendMessageTrace sampleState (some "hi") (FetchResult.fault "x")).take 4).countP Event.isNet = 0 ∧
    ((sendMessageTrace sampleState (some "hi") (FetchResult.fault "x")).take 4).countP Event.touchesHistory = 1 ∧
    (sendMessageTrace sampleState (some "hi") (FetchResult.fault "x"))[2]? =
      some (Event.setHist (sampleState.history ++ [userMsg (jsTrim "hi")])) :=
  spec_C1 sampleState "hi" (FetchResult.fault "x") (by decide) rfl (by decide)

/-- Claim C2, amended: after a dispatched send meets a failing HTTP
response (status 401), the conversation still contains the optimistic
user entry, the in-flight flag is false, and the stored error string
is non-empty with length at most 325 — the 24-character fixed prefix
(`OpenAI API 錯誤（HTTP 401）：`) plus the truncation bound 300 plus
one ellipsis character — rather than at most the truncation bound
alone. -/
theorem spec_C2 (s : ChatState) (text errBody : String) (c : Option String)
    (h1 : jsTrim text ≠ "") (h2 : s.loading = false) (h3 : s.apiKey ≠ "") :
    userMsg (jsTrim text) ∈ (sendMessage s (some text)
        (FetchResult.response { ok := false, status := 401, text := errBody, content := c })).history ∧
    (sendMessage s (some text)
        (FetchResult.response { ok := false, status := 401, text := errBody, content := c })).loading = false ∧
    (sendMessage s (some text)
        (FetchResult.response { ok := false, status := 401, text := errBody, content := c })).error ≠ "" ∧
    (sendMessage s (some text)
        (FetchResult.response { ok := false, status := 401, text := errBody, content := c })).error.length ≤ 325 := by
  have hs : sendMessage s (some text)
      (FetchResult.response { ok := false, status := 401, text := errBody, content := c })
      = { s with history := s.history ++ [userMsg (jsTrim text)],
                 input := "", loading := false, error := errorText 401 errBody } := by
    unfold sendMessage sendMessageTrace
    simp only [Option.getD]
    rw [if_neg (by simp [h1, h2]), if_neg h3]
    simp [applyTrace, applyEvent, userMsg]
  rw [hs]
  have hlen := errorText401_length errBody
  have hss := safeShort_length_le errBody 300
  refine ⟨by simp, rfl, ?_, by simp; omega⟩
  intro he
  simp at he
  have := congrArg String.length he
  rw [hlen] at this
  simp at this

/-- Witness for the amended C2 at a concrete state and failure body. -/
theorem spec_C2_witness :
    userMsg (jsTrim "hi") ∈ (sendMessage sampleState (some "hi")
        (FetchResult.response { ok := false, status := 401, text := "boom", content := none })).history ∧
    (sendMessage sampleState (some "hi")
        (FetchResult.response { ok := false, status := 401, text := "boom", content := none })).loading = false ∧
    (sendMessage sampleState (some "hi")
        (FetchResult.response { ok := false, status := 401, text := "boom", content := none })).error ≠ "" ∧
    (sendMessage sampleState (some "hi")
        (FetchResult.response { ok := false, status := 401, text := "boom", content := none })).error.length ≤ 325 :=
  spec_C2 sampleState "hi" "boom" none (by decide) rfl (by decide)

/-- Counterexample to C2 as stated: with a 400-character failure body
on HTTP 401, the stored error string is strictly longer than the
configured truncation bound 300, because the code prepends a fixed
prefix and an ellipsis to the truncated body. -/
theorem spec_C2_counterexample :
    ¬ ((sendMessage c2State (some "hi")
        (FetchResult.response { ok := false, status := 401, text := c2Body, content := none })).error.length ≤ 300) := by
  have he : (sendMessage c2State (some "hi")
      (FetchResult.response { ok := false, status := 401, text := c2Body, content := none })).error
      = errorText 401 c2Body := rfl
  have hne : c2Body ≠ "" := by decide
  have hdata : c2Body.1 = List.replicate 400 'a' := rfl
  have hgt : c2Body.length > 300 := by
    rw [← String.length_data, hdata, List.length_replicate]
    omega
  have hsafe : (safeShort c2Body 300).length = 301 := by
    unfold safeShort
    rw [if_neg hne, if_pos hgt, String.length_append, String.take_eq, hdata]
    rw [String.length_mk, List.length_take, List.length_replicate]
    have hdot : ("…" : String).length = 1 := rfl
    omega
  have hlen := errorText401_length c2Body
  rw [he]
  omega

/-- Claim C3: the message transformer is a pure total function that
maps a conversation of length N to an output of length N in order:
the entry at each index i exists, its role is the external name
(`assistant` for the internal `model` role, `user` kept for the user
role), and its content is the message parts joined verbatim with
newline separators. -/
theorem spec_C3 (h : List ChatMsg) :
    (toOpenAIMessages h).length = h.length ∧
    ∀ i : Nat, ∀ m : ChatMsg, h[i]? = some m →
      ∃ o : OutMsg, (toOpenAIMessages h)[i]? = some o ∧
        (m.role = Role.model → o.role = "assistant") ∧
        (m.role = Role.user → o.role = "user") ∧
        o.content = String.intercalate "\n" (m.parts.map Part.text) := by
  constructor
  · simp [toOpenAIMessages]
  · intro i m hm
    refine ⟨{ role := if m.role = Role.model then "assistant" else "user",
              content := String.intercalate "\n" (m.parts.map Part.text) }, ?_, ?_, ?_, rfl⟩
    · simp [toOpenAIMessages, List.getElem?_map, hm]
    · intro hr
      simp [hr]
    · intro hr
      have : m.role ≠ Role.model := by rw [hr]; intro hc; cases hc
      simp [this]

/-- Witness for C3 on a one-message conversation. -/
theorem spec_C3_witness :
    (toOpenAIMessages [modelMsg "a"]).length = ([modelMsg "a"] : List ChatMsg).length ∧
    ∃ o : OutMsg, (toOpenAIMessages [modelMsg "a"])[0]? = some o ∧
      ((modelMsg "a").role = Role.model → o.role = "assistant") ∧
      ((modelMsg "a").role = Role.user → o.role = "user") ∧
      o.content = String.intercalate "\n" ((modelMsg "a").parts.map Part.text) :=
  ⟨(spec_C3 [modelMsg "a"]).1, (spec_C3 [modelMsg "a"]).2 0 (modelMsg "a") (by decide)⟩

/-- Claim C4: with a non-empty trimmed input but an empty credential,
`sendMessage` performs zero network calls, stores the non-empty
missing-credential error, and leaves the conversation unchanged. -/
theorem spec_C4 (s : ChatState) (text : String) (net : FetchResult)
    (h1 : jsTrim text ≠ "") (h2 : s.loading = false) (hk : s.apiKey = "") :
    (sendMessageTrace s (some text) net).countP Event.isNet = 0 ∧
    (sendMessage s (some text) net).error = "請先輸入有效的 OpenAI API Key" ∧
    (sendMessage s (some text) net).error ≠ "" ∧
    (sendMessage s (some text) net).history = s.history := by
  have ht : sendMessageTrace s (some text) net
      = [Event.setErr "請先輸入有效的 OpenAI API Key"] := by
    unfold sendMessageTrace
    simp only [Option.getD]
    rw [if_neg (by simp [h1, h2]), if_pos hk]
  refine ⟨?_, ?_, ?_, ?_⟩ <;>
    simp [sendMessage, ht, applyTrace, applyEvent, List.countP, List.countP.go, Event.isNet]

/-- Witness for C4 at a concrete key-less state. -/
theorem spec_C4_witness :
    (sendMessageTrace noKeyState (some "hi") (FetchResult.fault "x")).countP Event.isNet = 0 ∧
    (sendMessage noKeyState (some "hi") (FetchResult.fault "x")).error = "請先輸入有效的 OpenAI API Key" ∧
    (sendMessage noKeyState (some "hi") (FetchResult.fault "x")).error ≠ "" ∧
    (sendMessage noKeyState (some "hi") (FetchResult.fault "x")).history = noKeyState.history :=
  spec_C4 noKeyState "hi" (FetchResult.fault "x") (by decide) rfl rfl

/-- Claim C5: a submission attempted while the in-flight flag is set
is a no-op — its event trace is empty (so no network call and no state
write at all) and the state is returned unchanged.  This is the mutual
exclusion making at most one request in flight at a time. -/
theorem spec_C5 (s : ChatState) (message : Option String) (net : FetchResult)
    (h : s.loading = true) :
    sendMessageTrace s message net = [] ∧ sendMessage s message net = s := by
  have ht : sendMessageTrace s message net = [] := by
    unfold sendMessageTrace
    simp [h]
  exact ⟨ht, by simp [sendMessage, ht, applyTrace]⟩

/-- Witness for C5 at a concrete busy state. -/
theorem spec_C5_witness :
    sendMessageTrace busyState (some "hi") (FetchResult.fault "x") = [] ∧
    sendMessage busyState (some "hi") (FetchResult.fault "x") = busyState :=
  spec_C5 busyState (some "hi") (FetchResult.fault "x") rfl

/-- Claim C6: on a successful response whose first completion text is
`Hello`, sending `hi` leaves the conversation ending with exactly the
two new entries, the user message `hi` followed by the assistant
message `Hello`, in that order. -/
theorem spec_C6 (s : ChatState) (status : Nat) (body : String)
    (h2 : s.loading = false) (h3 : s.apiKey ≠ "") :
    (sendMessage s (some "hi")
        (FetchResult.response { ok := true, status := status, text := body, content := some "Hello" })).history
      = s.history ++ [userMsg "hi", modelMsg "Hello"] := by
  unfold sendMessage sendMessageTrace
  simp only [Option.getD]
  rw [if_neg (by simp [h2]; decide), if_neg h3]
  simp [applyTrace, applyEvent, userMsg, modelMsg, show jsTrim "hi" = "hi" from rfl]

/-- Witness for C6 at a concrete state. -/
theorem spec_C6_witness :
    (sendMessage sampleState (some "hi")
        (FetchResult.response { ok := true, status := 200, text := "", content := some "Hello" })).history
      = sampleState.history ++ [userMsg "hi", modelMsg "Hello"] :=
  spec_C6 sampleState 200 "" rfl (by decide)

/-- Claim C7: on every exit path of a dispatched send attempt —
success, caught HTTP failure, or thrown error — the in-flight flag is
false once the attempt completes. -/
theorem spec_C7 (s : ChatState) (text : String) (net : FetchResult)
    (h1 : jsTrim text ≠ "") (h2 : s.loading = false) (h3 : s.apiKey ≠ "") :
    (sendMessage s (some text) net).loading = false := by
  unfold sendMessage sendMessageTrace
  simp only [Option.getD]
  rw [if_neg (by simp [h1, h2]), if_neg h3]
  rcases net with m | r
  · simp [applyTrace, applyEvent]
  · by_cases hok : r.ok = true <;> simp [hok, applyTrace, applyEvent]

/-- Witness for C7 at a concrete state with a thrown network fault. -/
theorem spec_C7_witness :
    (sendMessage sampleState (some "hi") (FetchResult.fault "boom")).loading = false :=
  spec_C7 sampleState "hi" (FetchResult.fault "boom") (by decide) rfl (by decide)

/-- Claim C8: an ok response whose first completion content field is
absent is not treated as an error — the placeholder `[No content]` is
appended as the assistant message and the error string stays empty. -/
theorem spec_C8 (s : ChatState) (text : String) (status : Nat) (body : String)
    (h1 : jsTrim text ≠ "") (h2 : s.loading = false) (h3 : s.apiKey ≠ "") :
    (sendMessage s (some text)
        (FetchResult.response { ok := true, status := status, text := body, content := none })).history
      = s.history ++ [userMsg (jsTrim text), modelMsg "[No content]"] ∧
    (sendMessage s (some text)
        (FetchResult.response { ok := true, status := status, text := body, content := none })).error
      = "" := by
  unfold sendMessage sendMessageTrace
  simp only [Option.getD]
  rw [if_neg (by simp [h1, h2]), if_neg h3]
  constructor <;> simp [applyTrace, applyEvent, userMsg, modelMsg]

/-- Witness for C8 at a concrete state. -/
theorem spec_C8_witness :
    (sendMessage sampleState (some "hi")
        (FetchResult.response { ok := true, status := 200, text := "", content := none })).history
      = sampleState.history ++ [userMsg (jsTrim "hi"), modelMsg "[No content]"] ∧
    (sendMessage sampleState (some "hi")
        (FetchResult.response { ok := true, status := 200, text := "", content := none })).error
      = "" :=
  spec_C8 sampleState "hi" 200 "" (by decide) rfl (by decide)

/-- Claim C9: toggling persistence off removes the stored credential;
toggling it on while the in-memory credential is non-empty immediately
writes that credential to the slot; and while persistence is enabled
every edit of the credential immediately writes the new value. -/
theorem spec_C9 (s : ChatState) (v : String) :
    (onRememberToggle s false).stored = none ∧
    (s.apiKey ≠ "" → (onRememberToggle s true).stored = some s.apiKey) ∧
    (s.rememberKey = true → (onApiKeyChange s v).stored = some v) := by
  refine ⟨by simp [onRememberToggle], ?_, ?_⟩
  · intro h
    simp [onRememberToggle, h]
  · intro h
    simp [onApiKeyChange, h]

/-- Witness for C9 at a concrete state with a non-empty credential and
persistence enabled. -/
theorem spec_C9_witness :
    (onRememberToggle sampleState false).stored = none ∧
    (onRememberToggle sampleState true).stored = some sampleState.apiKey ∧
    (onApiKeyChange sampleState "k2").stored = some "k2" :=
  ⟨(spec_C9 sampleState "k2").1, (spec_C9 sampleState "k2").2.1 (by decide),
   (spec_C9 sampleState "k2").2.2 (by decide)⟩

/-- Claim C10: `safeShort` is total; it returns `s` unchanged when the
length of `s` is at most `n`, otherwise the first `n` characters
followed by a single ellipsis character, so the result length is at
most `n + 1`. -/
theorem spec_C10 (s : String) (n : Nat) :
    (s.length ≤ n → safeShort s n = s) ∧
    (n < s.length → safeShort s n = s.take n ++ "…") ∧
    (safeShort s n).length ≤ n + 1 := by
  refine ⟨?_, ?_, safeShort_length_le s n⟩
  · intro h
    unfold safeShort
    by_cases he : s = ""
    · simp [he]
    · rw [if_neg he, if_neg (by omega)]
  · intro h
    unfold safeShort
    rw [if_neg ?hne, if_pos h]
    intro he
    rw [he] at h
    simp at h

/-- Witness for C10 on a string longer than the bound. -/
theorem spec_C10_witness :
    safeShort "hello" 3 = "hello".take 3 ++ "…" ∧ (safeShort "hello" 3).length ≤ 4 :=
  ⟨(spec_C10 "hello" 3).2.1 (by decide), (spec_C10 "hello" 3).2.2⟩

end WebRepo
